import Mathlib

/-! Embedding of the JSON extraction/repair and normalization pipeline of
`src/src/autogen/app.py`, together with theorems about its behaviour.

Python values are modelled by the inductive `PyVal`; `json.loads` is modelled
by `json_loads`, an executable strict JSON parser following the shape of the
standard-library decoder (floats are kept as their raw literal text: no
property proved here depends on float arithmetic).  Python dicts are modelled
as insertion-ordered association lists with Python's assignment semantics
(`dset`: overwrite in place if the key exists, append otherwise). -/

/-- Python-style dynamically typed values (the `Any` returned by `json.loads`
and manipulated by the validators in `app.py`). -/
inductive PyVal where
  | null : PyVal
  | bool (b : Bool) : PyVal
  | int (n : Int) : PyVal
  | float (raw : String) : PyVal
  | str (s : String) : PyVal
  | list (xs : List PyVal) : PyVal
  | dict (xs : List (String × PyVal)) : PyVal

/-- Dict lookup (`d[k]` / `d.get(k)`): first binding of the key. -/
def dget : List (String × PyVal) → String → Option PyVal
  | [], _ => Option.none
  | (k, v) :: rest, key => if k = key then some v else dget rest key

/-- Dict membership (`k in d`). -/
def dmem (d : List (String × PyVal)) (k : String) : Bool :=
  (dget d k).isSome

/-- Dict assignment (`d[k] = v`): overwrite in place, else append. -/
def dset : List (String × PyVal) → String → PyVal → List (String × PyVal)
  | [], key, v => [(key, v)]
  | (k, w) :: rest, key, v =>
      if k = key then (k, v) :: rest else (k, w) :: dset rest key v

/-- Python truthiness of a value (`bool(v)`). -/
def truthy : PyVal → Bool
  | .null => false
  | .bool b => b
  | .int n => decide (n ≠ 0)
  | .float raw => raw.toList.any (fun c => c.isDigit && decide (c ≠ '0'))
  | .str s => decide (s ≠ "")
  | .list xs => !xs.isEmpty
  | .dict xs => !xs.isEmpty

/-- `isinstance(v, dict)`. -/
def isDict : PyVal → Bool
  | .dict _ => true
  | _ => false

/-- `isinstance(v, list)`. -/
def isList : PyVal → Bool
  | .list _ => true
  | _ => false

/-! ### A strict JSON parser modelling `json.loads`

Follows the standard-library decoder: whitespace is ` \t\n\r`; strings reject
unescaped control characters (`strict=True`); numbers follow
`-?(0|[1-9][0-9]*)(.[0-9]+)?([eE][+-]?[0-9]+)?`; `NaN`/`Infinity`/`-Infinity`
are accepted; the whole input must be consumed.  Container parsing is mutual
recursion on an ample fuel so every function is a total `def`. -/

/-- The character `\x7b`. -/
def lbraceC : Char := '\x7b'

/-- The character `\x7d`. -/
def rbraceC : Char := '\x7d'

/-- The backtick character. -/
def backtickC : Char := '\x60'

/-- JSON whitespace. -/
def isJWS (c : Char) : Bool := c = ' ' || c = '\t' || c = '\n' || c = '\r'

/-- Skip JSON whitespace. -/
def jskip (cs : List Char) : List Char := cs.dropWhile isJWS

/-- Value of a hex digit. -/
def hexVal (c : Char) : Option Nat :=
  if c.isDigit then some (c.toNat - 48)
  else if 'a' ≤ c ∧ c ≤ 'f' then some (c.toNat - 87)
  else if 'A' ≤ c ∧ c ≤ 'F' then some (c.toNat - 55)
  else Option.none

/-- Scan a JSON string body (opening quote already consumed). -/
def parseJStrGo : List Char → List Char → Option (String × List Char)
  | _, [] => Option.none
  | acc, c :: rest =>
    if c = '\"' then some (String.mk acc.reverse, rest)
    else if c = '\\' then
      match rest with
      | [] => Option.none
      | e :: rest2 =>
        if e = '\"' then parseJStrGo ('\"' :: acc) rest2
        else if e = '\\' then parseJStrGo ('\\' :: acc) rest2
        else if e = '/' then parseJStrGo ('/' :: acc) rest2
        else if e = 'b' then parseJStrGo ('\x08' :: acc) rest2
        else if e = 'f' then parseJStrGo ('\x0c' :: acc) rest2
        else if e = 'n' then parseJStrGo ('\n' :: acc) rest2
        else if e = 'r' then parseJStrGo ('\r' :: acc) rest2
        else if e = 't' then parseJStrGo ('\t' :: acc) rest2
        else if e = 'u' then
          match rest2 with
          | h1 :: h2 :: h3 :: h4 :: rest3 =>
            match hexVal h1, hexVal h2, hexVal h3, hexVal h4 with
            | some a, some b, some c2, some d =>
                parseJStrGo (Char.ofNat (((a * 16 + b) * 16 + c2) * 16 + d) :: acc) rest3
            | _, _, _, _ => Option.none
          | _ => Option.none
        else Option.none
    else if c.toNat < 32 then Option.none
    else parseJStrGo (c :: acc) rest

/-- Numeric value of a digit list. -/
def natOfDigits (ds : List Char) : Nat :=
  ds.foldl (fun acc c => acc * 10 + (c.toNat - 48)) 0

/-- Match the JSON number grammar at the head of the input. -/
def parseNumber (cs : List Char) : Option (PyVal × List Char) :=
  let neg : Bool := match cs with
    | c :: _ => c = '-'
    | [] => false
  let cs1 : List Char := if neg then cs.tail else cs
  match cs1 with
  | [] => Option.none
  | d :: r =>
    if !d.isDigit then Option.none
    else
      let intDs : List Char := if d = '0' then [d] else d :: r.takeWhile Char.isDigit
      let rest1 : List Char := if d = '0' then r else r.dropWhile Char.isDigit
      let fracP : Option (List Char × List Char) :=
        match rest1 with
        | '.' :: f :: fr =>
          if f.isDigit then some ('.' :: f :: fr.takeWhile Char.isDigit, fr.dropWhile Char.isDigit)
          else Option.none
        | _ => Option.none
      let fracDs : List Char := match fracP with
        | some (ds, _) => ds
        | Option.none => []
      let rest2 : List Char := match fracP with
        | some (_, rs) => rs
        | Option.none => rest1
      let expP : Option (List Char × List Char) :=
        match rest2 with
        | e :: s :: es2 =>
          if e = 'e' ∨ e = 'E' then
            if s = '+' ∨ s = '-' then
              match es2 with
              | d2 :: es3 =>
                if d2.isDigit then
                  some (e :: s :: d2 :: es3.takeWhile Char.isDigit, es3.dropWhile Char.isDigit)
                else Option.none
              | [] => Option.none
            else if s.isDigit then
              some (e :: s :: es2.takeWhile Char.isDigit, es2.dropWhile Char.isDigit)
            else Option.none
          else Option.none
        | _ => Option.none
      let expDs : List Char := match expP with
        | some (ds, _) => ds
        | Option.none => []
      let rest3 : List Char := match expP with
        | some (_, rs) => rs
        | Option.none => rest2
      if fracDs.isEmpty ∧ expDs.isEmpty then
        let n : Int := Int.ofNat (natOfDigits intDs)
        some (PyVal.int (if neg then -n else n), rest1)
      else
        let raw := String.mk ((if neg then ['-'] else []) ++ intDs ++ fracDs ++ expDs)
        some (PyVal.float raw, rest3)

/-- Does `cs` start with the characters `p`? -/
def startsWithChars : List Char → List Char → Bool
  | [], _ => true
  | _ :: _, [] => false
  | a :: ps, b :: rest => a = b && startsWithChars ps rest

mutual

/-- Scan one JSON value at the head of the input (after whitespace). -/
def scanValue : Nat → List Char → Option (PyVal × List Char)
  | 0, _ => Option.none
  | _ + 1, [] => Option.none
  | fuel + 1, c :: rest =>
    if c = '\"' then
      match parseJStrGo [] rest with
      | some (s, rs) => some (PyVal.str s, rs)
      | Option.none => Option.none
    else if c = lbraceC then parseObjFirst fuel rest
    else if c = '[' then parseArrFirst fuel rest
    else if startsWithChars ['n','u','l','l'] (c :: rest) then some (PyVal.null, rest.drop 3)
    else if startsWithChars ['t','r','u','e'] (c :: rest) then some (PyVal.bool true, rest.drop 3)
    else if startsWithChars ['f','a','l','s','e'] (c :: rest) then some (PyVal.bool false, rest.drop 4)
    else
      match parseNumber (c :: rest) with
      | some r => some r
      | Option.none =>
        if startsWithChars ['N','a','N'] (c :: rest) then some (PyVal.float "nan", rest.drop 2)
        else if startsWithChars ['I','n','f','i','n','i','t','y'] (c :: rest) then
          some (PyVal.float "inf", rest.drop 7)
        else if startsWithChars ['-','I','n','f','i','n','i','t','y'] (c :: rest) then
          some (PyVal.float "-inf", rest.drop 8)
        else Option.none

/-- Scan an object body (opening brace already consumed). -/
def parseObjFirst : Nat → List Char → Option (PyVal × List Char)
  | 0, _ => Option.none
  | fuel + 1, cs =>
    match jskip cs with
    | [] => Option.none
    | c :: rest =>
      if c = rbraceC then some (PyVal.dict [], rest)
      else if c = '\"' then parseObjMember fuel [] (c :: rest)
      else Option.none

/-- Scan object members; `acc` holds the pairs built so far (duplicate keys
overwrite in place, as Python dict assignment does). -/
def parseObjMember : Nat → List (String × PyVal) → List Char → Option (PyVal × List Char)
  | 0, _, _ => Option.none
  | fuel + 1, acc, cs =>
    match cs with
    | '\"' :: rest =>
      match parseJStrGo [] rest with
      | some (key, rs) =>
        match jskip rs with
        | ':' :: rs2 =>
          match scanValue fuel (jskip rs2) with
          | some (v, rs3) =>
            let acc2 := dset acc key v
            match jskip rs3 with
            | c :: rs4 =>
              if c = rbraceC then some (PyVal.dict acc2, rs4)
              else if c = ',' then
                match jskip rs4 with
                | '\"' :: rs5 => parseObjMember fuel acc2 ('\"' :: rs5)
                | _ => Option.none
              else Option.none
            | [] => Option.none
          | Option.none => Option.none
        | _ => Option.none
      | Option.none => Option.none
    | _ => Option.none

/-- Scan an array body (opening bracket already consumed). -/
def parseArrFirst : Nat → List Char → Option (PyVal × List Char)
  | 0, _ => Option.none
  | fuel + 1, cs =>
    match jskip cs with
    | [] => Option.none
    | c :: rest =>
      if c = ']' then some (PyVal.list [], rest)
      else parseArrMember fuel [] (c :: rest)

/-- Scan array elements. -/
def parseArrMember : Nat → List PyVal → List Char → Option (PyVal × List Char)
  | 0, _, _ => Option.none
  | fuel + 1, acc, cs =>
    match scanValue fuel cs with
    | some (v, rs) =>
      match jskip rs with
      | c :: rs2 =>
        if c = ']' then some (PyVal.list (acc ++ [v]), rs2)
        else if c = ',' then parseArrMember fuel (acc ++ [v]) (jskip rs2)
        else Option.none
      | [] => Option.none
    | Option.none => Option.none

end

/-- Model of `json.loads`: parse one value, require the rest to be whitespace. -/
def json_loads (s : String) : Option PyVal :=
  match scanValue (8 * s.length + 16) (jskip s.toList) with
  | some (v, rest) => if (jskip rest).isEmpty then some v else Option.none
  | Option.none => Option.none

/-! ### The resilient JSON extractor (`clean_json_response`, app.py 227-315)

`clean_json_response` tries, in order: a direct parse of the whole text; the
greedy regex span from the first `\x7b` to the last `\x7d`; the greedy span
from the first `[` to the last `]`; the interior of a markdown code fence;
finally the character-by-character bracket-balanced scan of
`extract_json_by_building`, whose failed parses are retried once after the
two textual repairs (newline collapse, then bare-key quoting). -/

/-- `str.replace('\n', ' ')` from app.py line 305. -/
def collapse_newlines (s : String) : String :=
  String.mk (s.toList.map (fun c => if c = '\n' then ' ' else c))

/-- Python `\w` (ASCII part; the inputs under study are ASCII). -/
def isWordChar (c : Char) : Bool := c.isAlphanum || c = '_'

/-- Worker for `quote_keys`: `pend` is the current (reversed) word run. -/
def quoteKeysGo : List Char → List Char → List Char
  | pend, [] => pend.reverse
  | pend, c :: rest =>
    if isWordChar c then quoteKeysGo (c :: pend) rest
    else if c = ':' && !pend.isEmpty then
      ('\"' :: pend.reverse) ++ ('\"' :: c :: quoteKeysGo [] rest)
    else pend.reverse ++ (c :: quoteKeysGo [] rest)

/-- `re.sub(r'(\w+):', r'"\1":', s)` from app.py line 306: every maximal word
run immediately followed by a colon is wrapped in double quotes. -/
def quote_keys (s : String) : String := String.mk (quoteKeysGo [] s.toList)

/-- Index of the first run of three consecutive backticks. -/
def findFence : List Char → Option Nat
  | b1 :: b2 :: b3 :: rest =>
    if b1 = backtickC && b2 = backtickC && b3 = backtickC then some 0
    else (findFence (b2 :: b3 :: rest)).map (fun n => n + 1)
  | _ => Option.none

/-- Python `\s`. -/
def isPySpace (c : Char) : Bool :=
  c = ' ' || c = '\t' || c = '\n' || c = '\r' || c = '\x0b' || c = '\x0c'

/-- Strip trailing Python whitespace. -/
def rstripWS (cs : List Char) : List Char := (cs.reverse.dropWhile isPySpace).reverse

/-- Index of the first occurrence of `c`. -/
def firstIdxOf (c : Char) (cs : List Char) : Option Nat :=
  cs.findIdx? (fun x => x = c)

/-- Index of the last occurrence of `c`. -/
def lastIdxOf (c : Char) (cs : List Char) : Option Nat :=
  match cs.reverse.findIdx? (fun x => x = c) with
  | some j => some (cs.length - 1 - j)
  | Option.none => Option.none

/-- The span matched by `re.search(r'(\x7b[\s\S]*\x7d)', text)` (app.py line
243): greedy, from the first `\x7b` to the last `\x7d` after it. -/
def brace_span (text : String) : Option String :=
  let cs := text.toList
  match firstIdxOf lbraceC cs, lastIdxOf rbraceC cs with
  | some i, some j =>
      if i < j then some (String.mk ((cs.drop i).take (j - i + 1))) else Option.none
  | _, _ => Option.none

/-- The span matched by `re.search(r'(\[[\s\S]*\])', text)` (app.py line 252). -/
def bracket_span (text : String) : Option String :=
  let cs := text.toList
  match firstIdxOf '[' cs, lastIdxOf ']' cs with
  | some i, some j =>
      if i < j then some (String.mk ((cs.drop i).take (j - i + 1))) else Option.none
  | _, _ => Option.none

/-- The interior captured by
`re.search(r'\x60\x60\x60(?:json)?\s*([\s\S]*?)\s*\x60\x60\x60', text)`
(app.py line 261): after the first fence and an optional `json` tag, leading
whitespace is skipped and the lazy group ends (with trailing whitespace
stripped) at the next fence. -/
def fenced_span (text : String) : Option String :=
  let cs := text.toList
  match findFence cs with
  | Option.none => Option.none
  | some i =>
    let r1 := cs.drop (i + 3)
    let r2 := if startsWithChars "json".toList r1 then r1.drop 4 else r1
    let r3 := r2.dropWhile isPySpace
    match findFence r3 with
    | Option.none => Option.none
    | some q => some (String.mk (rstripWS (r3.take q)))

/-- The bracket-counting loop of `extract_json_by_building` (app.py 291-312):
`acc` holds the scanned characters in reverse; on the first return of the
counter to zero the span is parsed, and on failure reparsed once after both
textual repairs. -/
def bscan : Nat → List Char → List Char → Option PyVal
  | _, _, [] => Option.none
  | opens, acc, c :: rest =>
    let o := if c = lbraceC || c = '[' then opens + 1
             else if c = rbraceC || c = ']' then opens - 1
             else opens
    let acc2 := c :: acc
    if o = 0 then
      let json_str := String.mk acc2.reverse
      match json_loads json_str with
      | some v => some v
      | Option.none => json_loads (quote_keys (collapse_newlines json_str))
    else bscan o acc2 rest

/-- `extract_json_by_building` (app.py 275-315). -/
def extract_json_by_building (text : String) : Option PyVal :=
  let cs := text.toList
  match cs.findIdx? (fun c => c = lbraceC || c = '[') with
  | some i => bscan 0 [] (cs.drop i)
  | Option.none => Option.none

/-- Stage 4 of `clean_json_response`: fenced code block, then the building
scan (app.py 260-270). -/
def cjr_fenced_stage (text : String) : Option PyVal :=
  match fenced_span text with
  | some s =>
    match json_loads s with
    | some v => some v
    | Option.none => extract_json_by_building text
  | Option.none => extract_json_by_building text

/-- Stage 3 of `clean_json_response`: greedy array span (app.py 251-258). -/
def cjr_bracket_stage (text : String) : Option PyVal :=
  match bracket_span text with
  | some s =>
    match json_loads s with
    | some v => some v
    | Option.none => cjr_fenced_stage text
  | Option.none => cjr_fenced_stage text

/-- Stage 2 of `clean_json_response`: greedy object span (app.py 242-249). -/
def cjr_object_stage (text : String) : Option PyVal :=
  match brace_span text with
  | some s =>
    match json_loads s with
    | some v => some v
    | Option.none => cjr_bracket_stage text
  | Option.none => cjr_bracket_stage text

/-- `clean_json_response` (app.py 227-273).  The `except Exception` branch
returning the `\x7b"error": ...\x7d` sentinel is unreachable in this model:
none of the stages can raise. -/
def clean_json_response (text : String) : Option PyVal :=
  match json_loads text with
  | some v => some v
  | Option.none => cjr_object_stage text

/-- The syntactic candidate span of the building scan: from the first opening
bracket to the first position where the open/close counter returns to zero. -/
def scanBalanced : Nat → List Char → Option Nat
  | _, [] => Option.none
  | opens, c :: rest =>
    let o := if c = lbraceC || c = '[' then opens + 1
             else if c = rbraceC || c = ']' then opens - 1
             else opens
    if o = 0 then some 1 else (scanBalanced o rest).map (fun n => n + 1)

/-- The candidate span text of `extract_json_by_building`. -/
def candidate_span (text : String) : Option String :=
  let cs := text.toList
  match cs.findIdx? (fun c => c = lbraceC || c = '[') with
  | some i => (scanBalanced 0 (cs.drop i)).map (fun n => String.mk ((cs.drop i).take n))
  | Option.none => Option.none

/-! ### The schema normalizers (app.py 317-431)

`uuid.uuid4().hex[:8]` is nondeterministic, so the assessment normalizer is
parameterised by a stream `u : Nat → String` of fresh suffixes; every theorem
below quantifies over it.  F-string interpolation of an arbitrary value
(`f"Description for \x7bmodule['title']\x7d"`) uses Python `str`, modelled by
`pyStr`/`pyRepr` (string escaping inside `repr` is not reproduced; no claim
depends on it). -/

mutual

/-- Python `repr` of a value (approximate for nested strings). -/
def pyRepr : PyVal → String
  | .null => "None"
  | .bool b => if b then "True" else "False"
  | .int n => toString n
  | .float raw => raw
  | .str s => "\x27" ++ s ++ "\x27"
  | .list xs => "[" ++ pyReprElems xs ++ "]"
  | .dict xs => String.mk [lbraceC] ++ pyReprPairs xs ++ String.mk [rbraceC]

/-- Comma-joined `repr`s of list elements. -/
def pyReprElems : List PyVal → String
  | [] => ""
  | [x] => pyRepr x
  | x :: y :: rest => pyRepr x ++ ", " ++ pyReprElems (y :: rest)

/-- Comma-joined `repr`s of dict pairs. -/
def pyReprPairs : List (String × PyVal) → String
  | [] => ""
  | [(k, v)] => "\x27" ++ k ++ "\x27: " ++ pyRepr v
  | (k, v) :: p :: rest => "\x27" ++ k ++ "\x27: " ++ pyRepr v ++ ", " ++ pyReprPairs (p :: rest)

end

/-- Python `str` of a value. -/
def pyStr : PyVal → String
  | .str s => s
  | v => pyRepr v

/-- The statement shape `if key not in d: d[key] = v`. -/
def addDefault (d : List (String × PyVal)) (key : String) (v : PyVal) :
    List (String × PyVal) :=
  if dmem d key then d else dset d key v

/-- Lesson repair, app.py 353-362. -/
def fixLesson (j : Nat) (lv : PyVal) : PyVal :=
  match lv with
  | .dict ld =>
    .dict (addDefault (addDefault ld "title" (.str ("Lesson " ++ toString (j + 1))))
           "content" (.str ""))
  | _ => .dict [("title", .str ("Lesson " ++ toString (j + 1))), ("content", .str "")]

/-- `if "description" not in module: module["description"] = f"Description
for \x7bmodule['title']\x7d"` (app.py 346-347). -/
def addDescription (md : List (String × PyVal)) : List (String × PyVal) :=
  if dmem md "description" then md
  else
    dset md "description" (.str ("Description for " ++
      (match dget md "title" with
       | some tv => pyStr tv
       | Option.none => "")))

/-- `if "lessons" not in module or not isinstance(..., list): ... = []`, then
the per-lesson loop (app.py 349-362). -/
def fixLessonsList (md : List (String × PyVal)) : List (String × PyVal) :=
  let md1 : List (String × PyVal) :=
    match dget md "lessons" with
    | some (.list _) => md
    | _ => dset md "lessons" (.list [])
  match dget md1 "lessons" with
  | some (.list ls) => dset md1 "lessons" (.list (ls.enum.map (fun p => fixLesson p.1 p.2)))
  | _ => md1

/-- Module repair, app.py 338-362. -/
def fixModule (i : Nat) (mv : PyVal) : PyVal :=
  match mv with
  | .dict md =>
    .dict (fixLessonsList (addDescription
      (addDefault md "title" (.str ("Module " ++ toString (i + 1))))))
  | _ => .dict [("title", .str ("Module " ++ toString (i + 1))), ("lessons", .list [])]

/-- The per-module loop of `validate_course_structure` (app.py 337-362). -/
def fixModulesList (d : List (String × PyVal)) : List (String × PyVal) :=
  match dget d "modules" with
  | some (.list ms) => dset d "modules" (.list (ms.enum.map (fun p => fixModule p.1 p.2)))
  | _ => d

/-- `validate_course_structure` (app.py 317-364). -/
def validate_course_structure (data : PyVal) : PyVal :=
  let d : List (String × PyVal) :=
    match data with
    | .dict xs => xs
    | _ => [("title", .str "Untitled Course"), ("modules", .list [])]
  .dict (fixModulesList
    (addDefault (addDefault (addDefault d "title" (.str "Untitled Course"))
      "description" (.str "No description provided.")) "modules" (.list [])))

/-- The canned fallback question set of `validate_assessment_questions`
(app.py 379-401). -/
def defaultQuestions (u : Nat → String) : List PyVal :=
  [ .dict [("id", .str ("q_" ++ u 0)),
           ("question", .str "How would you rate your familiarity with this topic?"),
           ("options", .list [.str "Not familiar at all", .str "Somewhat familiar",
                              .str "Moderately familiar", .str "Very familiar",
                              .str "Expert level"]),
           ("type", .str "multiple_choice"),
           ("category", .str "prior_experience")],
    .dict [("id", .str ("q_" ++ u 1)),
           ("question", .str "How do you prefer to learn new concepts?"),
           ("options", .list [.str "Reading text", .str "Watching videos",
                              .str "Hands-on practice", .str "Structured tutorials",
                              .str "Open exploration"]),
           ("type", .str "multiple_choice"),
           ("category", .str "learning_style")],
    .dict [("id", .str ("q_" ++ u 2)),
           ("question", .str "What is your primary goal for learning this topic?"),
           ("options", .list [.str "Professional development", .str "Academic requirement",
                              .str "Personal interest", .str "Specific project",
                              .str "General knowledge"]),
           ("type", .str "multiple_choice"),
           ("category", .str "goals")] ]

/-- `if "id" not in question: ...` (app.py 416-417). -/
def fixQuestionId (u : Nat → String) (i : Nat) (qd : List (String × PyVal)) :
    List (String × PyVal) :=
  addDefault qd "id" (.str ("q_" ++ toString (i + 1) ++ "_" ++ u (i + 3)))

/-- `if "question" not in question or not question["question"]: ...`
(app.py 419-420). -/
def fixQuestionText (i : Nat) (qd : List (String × PyVal)) : List (String × PyVal) :=
  if (match dget qd "question" with
      | some v => truthy v
      | Option.none => false) then qd
  else dset qd "question" (.str ("Question " ++ toString (i + 1)))

/-- The default 4-element option list (app.py 423). -/
def defaultOptions : PyVal :=
  .list [.str "Option A", .str "Option B", .str "Option C", .str "Option D"]

/-- `if "options" not in question or not isinstance(..., list) or
len(...) < 2: ...` (app.py 422-423). -/
def fixQuestionOptions (qd : List (String × PyVal)) : List (String × PyVal) :=
  if (match dget qd "options" with
      | some (.list xs) => decide (2 ≤ xs.length)
      | _ => false) then qd
  else dset qd "options" defaultOptions

/-- Per-question repair, app.py 404-429. -/
def fixQuestion (u : Nat → String) (i : Nat) (q : PyVal) : PyVal :=
  match q with
  | .dict qd =>
    .dict (addDefault (addDefault
      (fixQuestionOptions (fixQuestionText i (fixQuestionId u i qd)))
      "type" (.str "multiple_choice")) "category" (.str "general_knowledge"))
  | _ => .dict [("id", .str ("q_" ++ toString (i + 1) ++ "_" ++ u (i + 3))),
                ("question", .str ("Question " ++ toString (i + 1))),
                ("options", defaultOptions),
                ("type", .str "multiple_choice"),
                ("category", .str "general_knowledge")]

/-- The default injection at app.py 376-401: replace `questions` unless it is
a non-empty list. -/
def ensureQuestions (u : Nat → String) (d : List (String × PyVal)) :
    List (String × PyVal) :=
  if (match dget d "questions" with
      | some (.list qs) => !qs.isEmpty
      | _ => false) then d
  else dset d "questions" (.list (defaultQuestions u))

/-- The per-question loop of app.py 404-429. -/
def fixQuestionsList (u : Nat → String) (d : List (String × PyVal)) :
    List (String × PyVal) :=
  match dget d "questions" with
  | some (.list qs) => dset d "questions" (.list (qs.enum.map (fun p => fixQuestion u p.1 p.2)))
  | _ => d

/-- `validate_assessment_questions` (app.py 366-431). -/
def validate_assessment_questions (u : Nat → String) (data : PyVal) : PyVal :=
  let d : List (String × PyVal) :=
    match data with
    | .dict xs => xs
    | _ => [("questions", .list [])]
  .dict (fixQuestionsList u (ensureQuestions u d))

/-! ### The plain-text question extractor (`extract_questions_from_text`,
app.py 1126-1206): a line-by-line state machine with a "current question"
accumulator. -/

/-- Python `str.strip()`. -/
def stripWS (cs : List Char) : List Char := rstripWS (cs.dropWhile isPySpace)

/-- Lowercase a character list. -/
def toLowerList (l : List Char) : List Char := l.map Char.toLower

/-- Is `needle` a substring (Python `in`)? -/
def containsSub (needle : List Char) : List Char → Bool
  | [] => needle.isEmpty
  | c :: rest => startsWithChars needle (c :: rest) || containsSub needle rest

/-- `re.match(r'^\s*(\d+)[\.\)]\s+(.*)', line)`: groups (number, rest). -/
def matchNumbered (l : List Char) : Option (String × String) :=
  let l1 := l.dropWhile isPySpace
  let ds := l1.takeWhile Char.isDigit
  let l2 := l1.dropWhile Char.isDigit
  if ds.isEmpty then Option.none
  else match l2 with
    | c :: rest =>
      if c = '.' ∨ c = ')' then
        if (rest.takeWhile isPySpace).isEmpty then Option.none
        else some (String.mk ds, String.mk (rest.dropWhile isPySpace))
      else Option.none
    | [] => Option.none

/-- `re.match(r'^\s*Question\s+(\d+)[\.\:]?\s+(.*)', line)`. -/
def matchQuestionLine (l : List Char) : Option (String × String) :=
  let l1 := l.dropWhile isPySpace
  if startsWithChars "Question".toList l1 then
    let r := l1.drop 8
    if (r.takeWhile isPySpace).isEmpty then Option.none
    else
      let r1 := r.dropWhile isPySpace
      let ds := r1.takeWhile Char.isDigit
      if ds.isEmpty then Option.none
      else
        let r2 := r1.dropWhile Char.isDigit
        let r3 := match r2 with
          | c :: rest => if c = '.' ∨ c = ':' then rest else r2
          | [] => r2
        if (r3.takeWhile isPySpace).isEmpty then Option.none
        else some (String.mk ds, String.mk (r3.dropWhile isPySpace))
  else Option.none

/-- `[a-dA-D]`. -/
def isAtoD (c : Char) : Bool :=
  (decide ('a' ≤ c) && decide (c ≤ 'd')) || (decide ('A' ≤ c) && decide (c ≤ 'D'))

/-- `[1-4]`. -/
def isOneToFour (c : Char) : Bool := decide ('1' ≤ c) && decide (c ≤ '4')

/-- `re.match(r'^\s*[a-dA-D][\.\)]\s+', line)` as a Boolean. -/
def isLetterOpt (l : List Char) : Bool :=
  match l.dropWhile isPySpace with
  | c :: d :: rest =>
      isAtoD c && (d = '.' || d = ')') && !(rest.takeWhile isPySpace).isEmpty
  | _ => false

/-- `re.match(r'^\s*[1-4][\.\)]\s+', line)` as a Boolean. -/
def isNumOpt (l : List Char) : Bool :=
  match l.dropWhile isPySpace with
  | c :: d :: rest =>
      isOneToFour c && (d = '.' || d = ')') && !(rest.takeWhile isPySpace).isEmpty
  | _ => false

/-- Is the next character a `\b` word boundary? -/
def boundaryAfter : List Char → Bool
  | [] => true
  | c :: _ => !isWordChar c

/-- `re.search(r'\b(true|false)\b', lowered)`: scan with the previous
character tracked for the left boundary. -/
def searchWordTF : Option Char → List Char → Bool
  | _, [] => false
  | prev, c :: rest =>
    let prevNonWord : Bool := match prev with
      | some p => !isWordChar p
      | Option.none => true
    if prevNonWord && startsWithChars "true".toList (c :: rest)
        && boundaryAfter ((c :: rest).drop 4) then true
    else if prevNonWord && startsWithChars "false".toList (c :: rest)
        && boundaryAfter ((c :: rest).drop 5) then true
    else searchWordTF (some c) rest

/-- Whitespace or colon (the class `[\s\:]`). -/
def isWSorColon (c : Char) : Bool := isPySpace c || c = ':'

/-- `re.search(r'(correct\s+)?answer[\s\:]+', line, re.IGNORECASE)` as a
Boolean: an occurrence of `answer` followed by whitespace/colon suffices. -/
def hasAnswerTag : List Char → Bool
  | [] => false
  | c :: rest =>
    (startsWithChars "answer".toList (c :: rest) &&
      (match (c :: rest).drop 6 with
       | c2 :: _ => isWSorColon c2
       | [] => false))
    || hasAnswerTag rest

/-- Position of the last feasible `answer[\s\:]+` match (greedy `.*` makes
`re.sub(r'.*answer[\s\:]+', '', line)` erase through the last one). -/
def lastAnswerIdx : Nat → Option Nat → List Char → Option Nat
  | _, best, [] => best
  | pos, best, c :: rest =>
      let best2 := if startsWithChars "answer".toList (c :: rest) &&
          (match (c :: rest).drop 6 with
           | c2 :: _ => isWSorColon c2
           | [] => false) then some pos else best
      lastAnswerIdx (pos + 1) best2 rest

/-- `re.sub(r'.*answer[\s\:]+', '', line, flags=re.IGNORECASE)`. -/
def answer_text_of (line : List Char) : List Char :=
  match lastAnswerIdx 0 Option.none (toLowerList line) with
  | some i => (line.drop (i + 6)).dropWhile isWSorColon
  | Option.none => line

/-- `.strip('* ')`. -/
def stripStarSpace (cs : List Char) : List Char :=
  let f := fun c => c = '*' || c = ' '
  ((cs.dropWhile f).reverse.dropWhile f).reverse

/-- `re.match(r'^[A-Da-d]$', s)`. -/
def isSingleLetterAD (cs : List Char) : Bool :=
  match cs with
  | [c] => isAtoD c
  | _ => false

/-- `ord(answer.upper()) - ord('A')`. -/
def letterIdx (c : Char) : Nat := c.toUpper.toNat - 65

/-- Any of the keywords occurs in the text (`any(word in text ...)`)? -/
def anyWordIn (ws : List String) (text : List Char) : Bool :=
  ws.any (fun w => containsSub w.toList text)

/-- The category-inference chain of app.py 1154-1167, applied to the new
question's text (the in-place `category` update lands in the same slot the
initial `general_knowledge` occupied, so the record can be built directly). -/
def categorize (qtext : String) : String :=
  let t := toLowerList qtext.toList
  if anyWordIn ["prefer", "like", "enjoy", "rather"] t then "preferences"
  else if anyWordIn ["learning style", "learn best", "absorb"] t then "learning_style"
  else if anyWordIn ["time", "hours", "schedule", "spend"] t then "time_availability"
  else if anyWordIn ["experience", "familiar", "knowledge", "understand"] t then "prior_experience"
  else if anyWordIn ["challenge", "difficult", "struggle", "hard"] t then "challenges"
  else if anyWordIn ["goal", "achieve", "want to", "aim"] t then "goals"
  else "general_knowledge"

/-- The current question's option list. -/
def qrecOptions (qd : List (String × PyVal)) : List PyVal :=
  match dget qd "options" with
  | some (.list xs) => xs
  | _ => []

/-- Python `text.split('\n')`. -/
def splitOnNL : List Char → List (List Char)
  | [] => [[]]
  | c :: rest =>
    if c = '\n' then [] :: splitOnNL rest
    else match splitOnNL rest with
      | l :: ls => (c :: l) :: ls
      | [] => [[c]]

/-- One step of the line loop of `extract_questions_from_text`
(app.py 1132-1194). -/
def processLine (st : List PyVal × Option (List (String × PyVal))) (rawLine : List Char) :
    List PyVal × Option (List (String × PyVal)) :=
  let questions := st.1
  let current := st.2
  let l := stripWS rawLine
  if l.isEmpty then (questions, current)
  else
    match (matchNumbered l).orElse (fun _ => matchQuestionLine l) with
    | some (num, qtext) =>
      let questions :=
        match current with
        | some cq => if !(qrecOptions cq).isEmpty then questions ++ [PyVal.dict cq] else questions
        | Option.none => questions
      let newq : List (String × PyVal) :=
        [("id", .str ("q_" ++ num)),
         ("type", .str "multiple_choice"),
         ("question", .str qtext),
         ("options", .list []),
         ("category", .str (categorize qtext)),
         ("weight", .int 1)]
      (questions, some newq)
    | Option.none =>
      match current with
      | Option.none => (questions, Option.none)
      | some cq =>
        if isLetterOpt l then
          let cq := dset cq "type" (.str "multiple_choice")
          let cq := dset cq "options" (.list (qrecOptions cq ++ [.str (String.mk l)]))
          (questions, some cq)
        else if isNumOpt l && decide ((qrecOptions cq).length < 4) then
          (questions, some (dset cq "options" (.list (qrecOptions cq ++ [.str (String.mk l)]))))
        else if searchWordTF Option.none (toLowerList l) then
          let cq := dset cq "type" (.str "true_false")
          let cq := if (qrecOptions cq).isEmpty then
              dset cq "options" (.list [.str "True", .str "False"])
            else cq
          (questions, some cq)
        else if hasAnswerTag (toLowerList l) || startsWithChars "**Answer:".toList l then
          let answerT := stripStarSpace (answer_text_of l)
          let cq := dset cq "correctAnswer" (.str (String.mk answerT))
          let cq :=
            if isSingleLetterAD answerT then
              match (qrecOptions cq).get? (letterIdx (answerT.headD 'A')) with
              | some opt => dset cq "correctAnswer" opt
              | Option.none => cq
            else cq
          (questions, some cq)
        else (questions, current)

/-- `extract_questions_from_text` (app.py 1126-1206). -/
def extract_questions_from_text (text : String) : List PyVal :=
  let step := (splitOnNL text.toList).foldl processLine ([], Option.none)
  let questions :=
    match step.2 with
    | some cq => if !(qrecOptions cq).isEmpty then step.1 ++ [PyVal.dict cq] else step.1
    | Option.none => step.1
  questions.map (fun q =>
    match q with
    | .dict qd =>
      let caOk : Bool := match dget qd "correctAnswer" with
        | some v => truthy v
        | Option.none => false
      let optsTruthy : Bool := match dget qd "options" with
        | some v => truthy v
        | _ => false
      if !caOk && optsTruthy then
        match dget qd "options" with
        | some (.list (o :: _)) => .dict (dset qd "correctAnswer" o)
        | _ => .dict qd
      else .dict qd
    | v => v)

/-! ### The retry loop (`execute_agent_task_with_retry`, app.py 433-511)

Each attempt's interaction with the agent is abstracted as an
`AttemptOutcome`: a timeout of `asyncio.wait_for`, an arbitrary raised
exception, an empty chat history (the `ValueError` at line 490), or a
returned response string.  `max_retries` is 3 (config.py).  On the last
attempt a timeout's `HTTPException` is itself caught by the outer
`except Exception` (it is an `Exception` subclass), so every exhausted path
raises the `Failed after 3 attempts` error. -/

/-- What one attempt of the agent call does. -/
inductive AttemptOutcome where
  | timeout : AttemptOutcome
  | exc (msg : String) : AttemptOutcome
  | empty : AttemptOutcome
  | resp (s : String) : AttemptOutcome

/-- `RETRY_CONFIG["max_retries"]` (config.py line 60). -/
def max_retries : Nat := 3

/-- The unhelpful-response content check at app.py line 482. -/
def unhelpfulResp (r : String) : Bool :=
  containsSub "I\x27m sorry, I can\x27t assist".toList r.toList ||
  containsSub "I\x27ll need more information".toList r.toList

/-- Rendering of the timeout `HTTPException` captured as `last_error`. -/
def timeoutDetail : String := "500: Request timed out after 300 seconds"

/-- The `for attempt in range(...)` loop body, app.py 440-508. -/
def retryGo (outcomes : Nat → AttemptOutcome) : List Nat → Except String String
  | [] => Except.error "Failed to execute agent task"
  | attempt :: rest =>
    match outcomes attempt with
    | .resp s =>
      if unhelpfulResp s && decide (attempt < max_retries - 1) then retryGo outcomes rest
      else Except.ok s
    | .timeout =>
      if decide (attempt < max_retries - 1) then retryGo outcomes rest
      else Except.error ("Failed after " ++ toString max_retries ++ " attempts: " ++ timeoutDetail)
    | .empty =>
      if decide (attempt < max_retries - 1) then retryGo outcomes rest
      else Except.error ("Failed after " ++ toString max_retries ++
        " attempts: Empty response received from agent")
    | .exc m =>
      if decide (attempt < max_retries - 1) then retryGo outcomes rest
      else Except.error ("Failed after " ++ toString max_retries ++ " attempts: " ++ m)

/-- `execute_agent_task_with_retry` as a function of the attempt outcomes:
`Except.error` models raising `HTTPException`, `Except.ok` a returned
response string. -/
def execute_agent_task_with_retry (outcomes : Nat → AttemptOutcome) : Except String String :=
  retryGo outcomes (List.range max_retries)

/-! ### The `/course/generate` endpoint envelope (app.py 560-673)

Modelled as a function of the retry outcome (`Except.error` = the raised
`HTTPException` reaching the outer `except`, which returns
`APIResponse(success=False, error=str(e))` with **no** metadata), the current
timestamp `ts` and the fresh uuid string.  The enrichment loop raises
`TypeError` on non-dict modules/lessons (caught by the inner
`except ... as parsing_error`), captured here by `courseEnrichOK`. -/

/-- `APIResponse` (app.py 184-188). -/
structure APIResponse where
  success : Bool
  data : Option PyVal
  error : Option String
  metadata : Option (List (String × PyVal))

/-- `\x7b"timestamp": datetime.now().isoformat()\x7d`. -/
def tsMeta (ts : String) : List (String × PyVal) := [("timestamp", PyVal.str ts)]

/-- Lesson enrichment, app.py 644-656. -/
def enrichLesson (i j : Nat) (lv : PyVal) : PyVal :=
  match lv with
  | .dict ld =>
    let ld := if dmem ld "id" then ld
      else dset ld "id" (.str ("lesson_" ++ toString (i + 1) ++ "_" ++ toString (j + 1)))
    let ld := if dmem ld "completed" then ld else dset ld "completed" (.bool false)
    let ld := if dmem ld "progress" then ld else dset ld "progress" (.int 0)
    let ld := if dmem ld "exercises" then ld else dset ld "exercises" (.list [])
    let ld := if dmem ld "resources" then ld else dset ld "resources" (.list [])
    let ld := if dmem ld "sessions" then ld else dset ld "sessions" (.list [])
    .dict ld
  | v => v

/-- Module enrichment, app.py 636-656. -/
def enrichModule (i : Nat) (mv : PyVal) : PyVal :=
  match mv with
  | .dict md =>
    let md := if dmem md "id" then md else dset md "id" (.str ("module_" ++ toString (i + 1)))
    let md := if dmem md "completed" then md else dset md "completed" (.bool false)
    let md := if dmem md "progress" then md else dset md "progress" (.int 0)
    let md := match dget md "lessons" with
      | some (.list ls) => dset md "lessons" (.list (ls.enum.map (fun p => enrichLesson i p.1 p.2)))
      | _ => md
    .dict md
  | v => v

/-- Would the enrichment loop run without a `TypeError`? -/
def moduleEnrichOK (mv : PyVal) : Bool :=
  match mv with
  | .dict md =>
    match dget md "lessons" with
    | Option.none => true
    | some (.list ls) => ls.all isDict
    | some _ => false
  | _ => false

/-- All modules enrich without a `TypeError`. -/
def courseEnrichOK (ms : List PyVal) : Bool := ms.all moduleEnrichOK

/-- Top-level enrichment, app.py 622-656 (`createdAt`/`updatedAt` collapse to
the one timestamp parameter). -/
def enrichCourse (uuid ts : String) (d : List (String × PyVal)) (ms : List PyVal) :
    List (String × PyVal) :=
  let d := if dmem d "id" then d else dset d "id" (.str uuid)
  let d := if dmem d "createdAt" then d else dset d "createdAt" (.str ts)
  let d := if dmem d "updatedAt" then d else dset d "updatedAt" (.str ts)
  let d := if dmem d "user_id" then d else dset d "user_id" (.str "system")
  dset d "modules" (.list (ms.enum.map (fun p => enrichModule p.1 p.2)))

/-- The `/course/generate` handler's envelope construction (app.py 560-673). -/
def generate_course (uuid ts : String) (outcome : Except String String) : APIResponse :=
  match outcome with
  | .error e =>
    { success := false, data := Option.none, error := some e, metadata := Option.none }
  | .ok result =>
    match clean_json_response result with
    | some (.dict d) =>
      match dget d "modules" with
      | some mv =>
        if truthy mv then
          match mv with
          | .list ms =>
            if courseEnrichOK ms then
              { success := true, data := some (.dict (enrichCourse uuid ts d ms)),
                error := Option.none, metadata := some (tsMeta ts) }
            else
              { success := false, data := Option.none,
                error := some "Failed to parse course structure: TypeError",
                metadata := some (tsMeta ts) }
          | _ =>
            { success := false, data := Option.none,
              error := some "Failed to parse course structure: TypeError",
              metadata := some (tsMeta ts) }
        else
          { success := false, data := Option.none,
            error := some "Failed to generate valid course structure",
            metadata := some (tsMeta ts) }
      | Option.none =>
        { success := false, data := Option.none,
          error := some "Failed to generate valid course structure",
          metadata := some (tsMeta ts) }
    | _ =>
      { success := false, data := Option.none,
        error := some "Failed to generate valid course structure",
        metadata := some (tsMeta ts) }

/-! ### Helper views used by the theorems -/

/-- The `modules` field of a normalized course. -/
def modulesOf (v : PyVal) : Option PyVal :=
  match v with
  | .dict d => dget d "modules"
  | _ => Option.none

/-- The `questions` field of a normalized assessment. -/
def questionsOf (v : PyVal) : Option PyVal :=
  match v with
  | .dict d => dget d "questions"
  | _ => Option.none

/-- The underlying association list of a dict value. -/
def fieldsOf (v : PyVal) : List (String × PyVal) :=
  match v with
  | .dict d => d
  | _ => []

/-- A question record with all the required fields of app.py 415-429:
an `id`, a truthy `question`, an `options` list of length at least 2,
a `type` and a `category`. -/
def goodQuestion (q : PyVal) : Bool :=
  match q with
  | .dict qd =>
    dmem qd "id" &&
    (match dget qd "question" with
     | some v => truthy v
     | Option.none => false) &&
    (match dget qd "options" with
     | some (.list xs) => decide (2 ≤ xs.length)
     | _ => false) &&
    dmem qd "type" && dmem qd "category"
  | _ => false

/-- An attempt that fails (timeout, raised exception, or empty chat
history) rather than returning a response string. -/
def isFailureOutcome : AttemptOutcome → Bool
  | .resp _ => false
  | _ => true

/-! ### Dictionary lemmas -/

theorem dget_dset_self (d : List (String × PyVal)) (k : String) (v : PyVal) :
    dget (dset d k v) k = some v := by
  induction d with
  | nil => simp [dget, dset]
  | cons p rest ih =>
      obtain ⟨k', w⟩ := p
      by_cases h : k' = k
      · simp [dget, dset, h]
      · simp [dget, dset, h, ih]

theorem dget_dset_ne (d : List (String × PyVal)) (k k' : String) (v : PyVal)
    (h : k ≠ k') : dget (dset d k v) k' = dget d k' := by
  induction d with
  | nil => simp [dget, dset, h]
  | cons p rest ih =>
      obtain ⟨k0, w⟩ := p
      by_cases h0 : k0 = k
      · subst h0
        simp [dget, dset, h]
      · by_cases h1 : k0 = k'
        · subst h1
          simp [dget, dset, h0]
        · simp [dget, dset, h0, h1, ih]

theorem dmem_dset_self (d : List (String × PyVal)) (k : String) (v : PyVal) :
    dmem (dset d k v) k = true := by
  simp [dmem, dget_dset_self]

theorem dmem_dset_ne (d : List (String × PyVal)) (k k' : String) (v : PyVal)
    (h : k ≠ k') : dmem (dset d k v) k' = dmem d k' := by
  simp [dmem, dget_dset_ne _ _ _ _ h]

/-! ### Structure of the building scan -/

/-- The building scan equals: find the balanced candidate span, parse it, and
on failure parse it once more after both textual repairs. -/
theorem bscan_eq_span : ∀ (rest : List Char) (opens : Nat) (acc : List Char),
    bscan opens acc rest =
      match scanBalanced opens rest with
      | some n =>
        match json_loads (String.mk (acc.reverse ++ rest.take n)) with
        | some v => some v
        | Option.none =>
            json_loads (quote_keys (collapse_newlines (String.mk (acc.reverse ++ rest.take n))))
      | Option.none => Option.none := by
  intro rest
  induction rest with
  | nil => intro opens acc; simp [bscan, scanBalanced]
  | cons c cr ih =>
    intro opens acc
    simp only [bscan, scanBalanced]
    by_cases h : (if c = lbraceC || c = '[' then opens + 1
        else if c = rbraceC || c = ']' then opens - 1 else opens) = 0
    · simp only [h, if_true]
      simp [List.take]
    · simp only [h, if_false]
      rw [ih]
      cases hs : scanBalanced (if c = lbraceC || c = '[' then opens + 1
          else if c = rbraceC || c = ']' then opens - 1 else opens) cr with
      | none => simp
      | some n => simp [List.take]

/-- Every value produced by the building scan is the strict parse of some
string. -/
theorem bscan_range : ∀ (rest : List Char) (opens : Nat) (acc : List Char) (v : PyVal),
    bscan opens acc rest = some v → ∃ s, json_loads s = some v := by
  intro rest opens acc v h
  rw [bscan_eq_span] at h
  split at h
  · split at h
    · rename_i heq
      exact ⟨_, heq.trans h⟩
    · exact ⟨_, h⟩
  · exact absurd h (by simp)

theorem ejb_range (text : String) (v : PyVal)
    (h : extract_json_by_building text = some v) : ∃ s, json_loads s = some v := by
  simp only [extract_json_by_building] at h
  split at h
  · exact bscan_range _ _ _ _ h
  · exact absurd h (by simp)

theorem cjr_fenced_range (text : String) (v : PyVal)
    (h : cjr_fenced_stage text = some v) : ∃ s, json_loads s = some v := by
  unfold cjr_fenced_stage at h
  split at h
  · split at h
    · rename_i heq
      exact ⟨_, heq.trans h⟩
    · exact ejb_range _ _ h
  · exact ejb_range _ _ h

theorem cjr_bracket_range (text : String) (v : PyVal)
    (h : cjr_bracket_stage text = some v) : ∃ s, json_loads s = some v := by
  unfold cjr_bracket_stage at h
  split at h
  · split at h
    · rename_i heq
      exact ⟨_, heq.trans h⟩
    · exact cjr_fenced_range _ _ h
  · exact cjr_fenced_range _ _ h

theorem cjr_object_range (text : String) (v : PyVal)
    (h : cjr_object_stage text = some v) : ∃ s, json_loads s = some v := by
  unfold cjr_object_stage at h
  split at h
  · split at h
    · rename_i heq
      exact ⟨_, heq.trans h⟩
    · exact cjr_bracket_range _ _ h
  · exact cjr_bracket_range _ _ h

/-! ### Claim theorems -/

/-- C1 (counterexample): the claim says every non-mapping input yields a
`modules` sequence of length at least 1, but normalizing `None` yields an
empty `modules` list — `validate_course_structure` never adds a module. -/
theorem c1_nonmapping_modules_empty_cex :
    modulesOf (validate_course_structure PyVal.null) = some (PyVal.list []) ∧
    ¬ (1 ≤ ([] : List PyVal).length) :=
  ⟨rfl, by decide⟩

/-- C1 (amended): for every input value that is not a mapping (including
`None`), `validate_course_structure` returns exactly the skeleton record with
the non-empty strings `"Untitled Course"` and `"No description provided."`
and an **empty** `modules` list; no minimum module count is guaranteed. -/
theorem c1_nonmapping_skeleton (v : PyVal) (h : isDict v = false) :
    validate_course_structure v =
      PyVal.dict [("title", PyVal.str "Untitled Course"),
                  ("modules", PyVal.list []),
                  ("description", PyVal.str "No description provided.")] := by
  cases v <;> first | rfl | simp [isDict] at h

/-- C1 (witness): the amended theorem applied at the concrete input `None`. -/
theorem c1_nonmapping_skeleton_witness :
    isDict PyVal.null = false ∧
    validate_course_structure PyVal.null =
      PyVal.dict [("title", PyVal.str "Untitled Course"),
                  ("modules", PyVal.list []),
                  ("description", PyVal.str "No description provided.")] :=
  ⟨rfl, c1_nonmapping_skeleton PyVal.null rfl⟩

/-- C2: for every input string the extractor returns either `None` or a value
that is the strict JSON parse of some string (the totality itself is
witnessed by `clean_json_response` being a total function; no exception path
exists in the model, so the `error` sentinel branch is unreachable). -/
theorem c2_extractor_total_range (text : String) :
    clean_json_response text = Option.none ∨
    ∃ s v, json_loads s = some v ∧ clean_json_response text = some v := by
  cases hd : json_loads text with
  | some v =>
    exact Or.inr ⟨text, v, hd, by simp [clean_json_response, hd]⟩
  | none =>
    cases ho : cjr_object_stage text with
    | none => exact Or.inl (by simp [clean_json_response, hd, ho])
    | some v =>
      obtain ⟨s, hs⟩ := cjr_object_range _ _ ho
      exact Or.inr ⟨s, v, hs, by simp [clean_json_response, hd, ho]⟩

/-- C3 (counterexample): a balanced candidate span that becomes valid JSON
after the newline-collapse repair alone, on which the extractor nevertheless
returns `None` — the parse is not retried between the two repairs, and the
key-quoting repair corrupts this span. -/
theorem c3_newline_repair_alone_not_retried_cex :
    candidate_span "\x7b\"a\": \"b\nc: d\"\x7d" = some "\x7b\"a\": \"b\nc: d\"\x7d" ∧
    (json_loads (collapse_newlines "\x7b\"a\": \"b\nc: d\"\x7d")).isSome = true ∧
    extract_json_by_building "\x7b\"a\": \"b\nc: d\"\x7d" = Option.none :=
  ⟨rfl, rfl, rfl⟩

/-- C3 (amended): when the strict parse of the balanced candidate span fails,
both textual repairs are applied in sequence and the parse is retried exactly
once, after both — so the result is the parse of the key-quoted
newline-collapsed span, not of the newline-collapsed span alone. -/
theorem c3_single_retry_after_both_repairs (text sp : String)
    (hc : candidate_span text = some sp)
    (hfail : json_loads sp = Option.none) :
    extract_json_by_building text = json_loads (quote_keys (collapse_newlines sp)) := by
  simp only [candidate_span] at hc
  simp only [extract_json_by_building]
  cases hi : (text.toList.findIdx? (fun c => c = lbraceC || c = '[')) with
  | none => rw [hi] at hc; simp at hc
  | some i =>
    rw [hi] at hc
    simp only [Option.map_eq_some'] at hc
    obtain ⟨n, hn, hsp⟩ := hc
    show bscan 0 [] (text.toList.drop i) = _
    rw [bscan_eq_span, hn]
    simp only [List.reverse_nil, List.nil_append]
    subst hsp
    simp only [String.toList] at hfail ⊢
    simp [hfail]

/-- C3 (witness): the amended theorem applied to a bare-key object span whose
strict parse fails and whose repaired parse succeeds. -/
theorem c3_single_retry_after_both_repairs_witness :
    candidate_span "\x7bname: \"x\"\x7d" = some "\x7bname: \"x\"\x7d" ∧
    json_loads "\x7bname: \"x\"\x7d" = Option.none ∧
    extract_json_by_building "\x7bname: \"x\"\x7d" =
      json_loads (quote_keys (collapse_newlines "\x7bname: \"x\"\x7d")) :=
  ⟨rfl, rfl, c3_single_retry_after_both_repairs "\x7bname: \"x\"\x7d" "\x7bname: \"x\"\x7d" rfl rfl⟩

/-- C4: evaluation at the failing input.  The claim says that with a question
open, the line `2) Second` (numbered-option pattern, fewer than 4 options
collected) is appended to the open question's options; the code instead lets
the numbered-question pattern at app.py line 1138 capture it first, so it
starts a new question (discarded for having no options) and the option is
lost.  The numbered-option branch at line 1175 is unreachable: every line it
would accept already matches the question pattern. -/
theorem c4_numbered_option_starts_new_question :
    extract_questions_from_text "1. Pick one\na) X\n2) Second" =
      [PyVal.dict [("id", PyVal.str "q_1"),
                   ("type", PyVal.str "multiple_choice"),
                   ("question", PyVal.str "Pick one"),
                   ("options", PyVal.list [PyVal.str "a) X"]),
                   ("category", PyVal.str "general_knowledge"),
                   ("weight", PyVal.int 1),
                   ("correctAnswer", PyVal.str "a) X")]] := rfl

/-- C5 (counterexample): when every one of the 3 attempts returns a response
matching the unhelpful-response pattern, the operation does **not** surface a
fatal error — the final attempt's unhelpful text is returned verbatim (the
content check at app.py line 483 only retries while `attempt <
max_retries - 1`). -/
theorem c5_unhelpful_final_response_returned_cex :
    execute_agent_task_with_retry
        (fun _ => AttemptOutcome.resp "I\x27m sorry, I can\x27t assist with that request.") =
      Except.ok "I\x27m sorry, I can\x27t assist with that request." ∧
    unhelpfulResp "I\x27m sorry, I can\x27t assist with that request." = true :=
  ⟨rfl, rfl⟩

/-- C5 (amended): whenever every one of the 3 attempts fails by per-attempt
timeout, raised exception, or empty chat history, the operation surfaces an
explicit fatal error to the caller; an unhelpful response on the final
attempt is instead returned as the result. -/
theorem c5_failures_exhaust_to_error (outcomes : Nat → AttemptOutcome)
    (h : ∀ i, i < max_retries → isFailureOutcome (outcomes i) = true) :
    ∃ msg, execute_agent_task_with_retry outcomes = Except.error msg := by
  have h0 := h 0 (by decide)
  have h1 := h 1 (by decide)
  have h2 := h 2 (by decide)
  have hr : List.range max_retries = [0, 1, 2] := by decide
  unfold execute_agent_task_with_retry
  rw [hr]
  cases o0 : outcomes 0 <;> simp [o0, isFailureOutcome] at h0 <;>
    cases o1 : outcomes 1 <;> simp [o1, isFailureOutcome] at h1 <;>
      cases o2 : outcomes 2 <;> simp [o2, isFailureOutcome] at h2 <;>
        simp [retryGo, o0, o1, o2, max_retries]

/-- C5 (witness): the amended theorem applied to three timeouts. -/
theorem c5_failures_exhaust_to_error_witness :
    (∀ i, i < max_retries →
      isFailureOutcome ((fun _ => AttemptOutcome.timeout) i) = true) ∧
    ∃ msg, execute_agent_task_with_retry (fun _ => AttemptOutcome.timeout) =
      Except.error msg :=
  ⟨fun _ _ => rfl, c5_failures_exhaust_to_error (fun _ => AttemptOutcome.timeout) (fun _ _ => rfl)⟩

/-- C6 (counterexample): the outer exception handler of `/course/generate`
(app.py line 673) builds `APIResponse(success=False, error=str(e))` with no
metadata at all, refuting "the metadata mapping is always present". -/
theorem c6_outer_handler_metadata_missing_cex :
    (generate_course "u" "t" (Except.error "boom")).metadata = Option.none ∧
    (generate_course "u" "t" (Except.error "boom")).success = false :=
  ⟨rfl, rfl⟩

/-- C6 (amended): every envelope of `/course/generate` with `success = true`
has no `error` and carries a metadata mapping with the generation timestamp;
envelopes lacking metadata occur, but only from the outermost exception
handler (and they have `success = false`). -/
theorem c6_envelope_invariant_amended (uuid ts : String) (outcome : Except String String) :
    ((generate_course uuid ts outcome).success = true →
      (generate_course uuid ts outcome).error = Option.none ∧
      (generate_course uuid ts outcome).metadata = some (tsMeta ts) ∧
      dget (tsMeta ts) "timestamp" = some (PyVal.str ts)) ∧
    ((generate_course uuid ts outcome).metadata = Option.none →
      ∃ e, outcome = Except.error e) := by
  cases outcome with
  | error e => exact ⟨by intro h; simp [generate_course] at h, fun _ => ⟨e, rfl⟩⟩
  | ok result =>
    unfold generate_course
    repeat' split
    all_goals simp_all [tsMeta, dget]

/-- C6 (witness): the amended theorem applied at a successful generation. -/
theorem c6_envelope_invariant_amended_witness :
    (generate_course "U" "T" (Except.ok "\x7b\"modules\": [\x7b\x7d]\x7d")).success = true ∧
    (generate_course "U" "T" (Except.ok "\x7b\"modules\": [\x7b\x7d]\x7d")).error = Option.none ∧
    (generate_course "U" "T" (Except.ok "\x7b\"modules\": [\x7b\x7d]\x7d")).metadata =
      some (tsMeta "T") :=
  ⟨rfl,
   ((c6_envelope_invariant_amended "U" "T" (Except.ok "\x7b\"modules\": [\x7b\x7d]\x7d")).1 rfl).1,
   ((c6_envelope_invariant_amended "U" "T" (Except.ok "\x7b\"modules\": [\x7b\x7d]\x7d")).1 rfl).2.1⟩

/-- C8: the plain-text extraction end-to-end example — the four-line input
yields exactly one question with the verbatim options `a) Video`,
`b) Reading`, the category inferred from "learn best", and `correctAnswer`
resolved from the single letter `a` to the option at index 0. -/
theorem c8_plain_text_extraction_end_to_end :
    extract_questions_from_text "1. How do you learn best?\na) Video\nb) Reading\nAnswer: a" =
      [PyVal.dict [("id", PyVal.str "q_1"),
                   ("type", PyVal.str "multiple_choice"),
                   ("question", PyVal.str "How do you learn best?"),
                   ("options", PyVal.list [PyVal.str "a) Video", PyVal.str "b) Reading"]),
                   ("category", PyVal.str "learning_style"),
                   ("weight", PyVal.int 1),
                   ("correctAnswer", PyVal.str "a) Video")]] := rfl

/-- C9: fenced-block precedence — when the whole text, the greedy object
span, and the greedy array span all fail to parse but the fenced block's
interior is valid JSON, `clean_json_response` returns the fenced block's
parsed content. -/
theorem c9_fenced_block_precedence (text s : String) (v : PyVal)
    (hdirect : json_loads text = Option.none)
    (hbrace : (brace_span text).bind json_loads = Option.none)
    (hbracket : (bracket_span text).bind json_loads = Option.none)
    (hfence : fenced_span text = some s)
    (hparse : json_loads s = some v) :
    clean_json_response text = some v := by
  cases hb : brace_span text with
  | none =>
    cases hk : bracket_span text with
    | none =>
      simp only [clean_json_response, cjr_object_stage, cjr_bracket_stage, cjr_fenced_stage,
        hdirect, hb, hk, hfence, hparse]
    | some sk =>
      have hsk : json_loads sk = Option.none := by rw [hk] at hbracket; simpa using hbracket
      simp only [clean_json_response, cjr_object_stage, cjr_bracket_stage, cjr_fenced_stage,
        hdirect, hb, hk, hsk, hfence, hparse]
  | some sb =>
    have hsb : json_loads sb = Option.none := by rw [hb] at hbrace; simpa using hbrace
    cases hk : bracket_span text with
    | none =>
      simp only [clean_json_response, cjr_object_stage, cjr_bracket_stage, cjr_fenced_stage,
        hdirect, hb, hsb, hk, hfence, hparse]
    | some sk =>
      have hsk : json_loads sk = Option.none := by rw [hk] at hbracket; simpa using hbracket
      simp only [clean_json_response, cjr_object_stage, cjr_bracket_stage, cjr_fenced_stage,
        hdirect, hb, hsb, hk, hsk, hfence, hparse]

/-- C9 (witness): the precedence theorem applied to a text whose brace noise
is invalid and whose fenced block carries the object. -/
theorem c9_fenced_block_precedence_witness :
    clean_json_response "x\x7ba \x60\x60\x60json\n\x7b\"k\": 1\x7d\n\x60\x60\x60 b\x7dy" =
      some (PyVal.dict [("k", PyVal.int 1)]) :=
  c9_fenced_block_precedence _ "\x7b\"k\": 1\x7d" _ rfl rfl rfl rfl rfl

/-! ### Lemmas about the conditional default-injection steps -/

theorem dget_addDefault_ne (d : List (String × PyVal)) (key k : String) (v : PyVal)
    (h : key ≠ k) : dget (addDefault d key v) k = dget d k := by
  unfold addDefault
  split
  · rfl
  · exact dget_dset_ne _ _ _ _ h

theorem dmem_addDefault_ne (d : List (String × PyVal)) (key k : String) (v : PyVal)
    (h : key ≠ k) : dmem (addDefault d key v) k = dmem d k := by
  simp [dmem, dget_addDefault_ne _ _ _ _ h]

theorem dmem_addDefault_self (d : List (String × PyVal)) (key : String) (v : PyVal) :
    dmem (addDefault d key v) key = true := by
  unfold addDefault
  split
  · assumption
  · exact dmem_dset_self _ _ _

theorem dget_addDefault_of_some (d : List (String × PyVal)) (key : String) (v w : PyVal)
    (h : dget d key = some w) : dget (addDefault d key v) key = some w := by
  unfold addDefault
  rw [if_pos]
  · exact h
  · simp [dmem, h]

theorem ne_empty_append (s t : String) (h : s.data ≠ []) : (s ++ t) ≠ "" := by
  intro he
  have hd : (s ++ t).data = [] := by rw [he]
  rw [String.data_append] at hd
  exact h (List.append_eq_nil.mp hd).1

/-- Every question produced by the per-question repair has all the required
fields: the five checks of app.py 415-429 establish them and the later steps
do not disturb the earlier ones. -/
theorem fixQuestion_good (u : Nat → String) (i : Nat) (q : PyVal) :
    goodQuestion (fixQuestion u i q) = true := by
  have hqne : ("Question " ++ toString (i + 1)) ≠ "" :=
    ne_empty_append _ _ (by decide)
  cases q with
  | dict qd =>
    simp only [fixQuestion, goodQuestion]
    generalize hq1 : fixQuestionId u i qd = q1
    generalize hq2 : fixQuestionText i q1 = q2
    generalize hq3 : fixQuestionOptions q2 = q3
    have hid1 : dmem q1 "id" = true := by
      rw [← hq1]; exact dmem_addDefault_self _ _ _
    have htext2 : (match dget q2 "question" with
        | some v => truthy v
        | Option.none => false) = true := by
      rw [← hq2]; unfold fixQuestionText
      by_cases hc : (match dget q1 "question" with
          | some v => truthy v
          | Option.none => false) = true
      · rw [if_pos hc]; exact hc
      · rw [if_neg hc, dget_dset_self]
        simp [truthy, hqne]
    have hid2 : dmem q2 "id" = true := by
      rw [← hq2]; unfold fixQuestionText
      split
      · exact hid1
      · rw [dmem_dset_ne _ _ _ _ (by decide)]; exact hid1
    have hopt3 : (match dget q3 "options" with
        | some (.list xs) => decide (2 ≤ xs.length)
        | _ => false) = true := by
      rw [← hq3]; unfold fixQuestionOptions
      by_cases hc : (match dget q2 "options" with
          | some (.list xs) => decide (2 ≤ xs.length)
          | _ => false) = true
      · rw [if_pos hc]; exact hc
      · rw [if_neg hc, dget_dset_self]; simp [defaultOptions]
    have hid3 : dmem q3 "id" = true := by
      rw [← hq3]; unfold fixQuestionOptions
      split
      · exact hid2
      · rw [dmem_dset_ne _ _ _ _ (by decide)]; exact hid2
    have htext3 : (match dget q3 "question" with
        | some v => truthy v
        | Option.none => false) = true := by
      rw [← hq3]; unfold fixQuestionOptions
      by_cases hc : (match dget q2 "options" with
          | some (.list xs) => decide (2 ≤ xs.length)
          | _ => false) = true
      · rw [if_pos hc]; exact htext2
      · rw [if_neg hc, dget_dset_ne _ _ _ _ (by decide)]; exact htext2
    simp only [Bool.and_eq_true]
    refine ⟨⟨⟨⟨?_, ?_⟩, ?_⟩, ?_⟩, ?_⟩
    · rw [dmem_addDefault_ne _ _ _ _ (by decide),
          dmem_addDefault_ne _ _ _ _ (by decide)]
      exact hid3
    · rw [dget_addDefault_ne _ _ _ _ (by decide),
          dget_addDefault_ne _ _ _ _ (by decide)]
      exact htext3
    · rw [dget_addDefault_ne _ _ _ _ (by decide),
          dget_addDefault_ne _ _ _ _ (by decide)]
      exact hopt3
    · rw [dmem_addDefault_ne _ _ _ _ (by decide)]
      exact dmem_addDefault_self _ _ _
    · exact dmem_addDefault_self _ _ _
  | null => simp [fixQuestion, goodQuestion, dmem, dget, truthy, defaultOptions, hqne]
  | bool b => simp [fixQuestion, goodQuestion, dmem, dget, truthy, defaultOptions, hqne]
  | int n => simp [fixQuestion, goodQuestion, dmem, dget, truthy, defaultOptions, hqne]
  | float f => simp [fixQuestion, goodQuestion, dmem, dget, truthy, defaultOptions, hqne]
  | str s => simp [fixQuestion, goodQuestion, dmem, dget, truthy, defaultOptions, hqne]
  | list l => simp [fixQuestion, goodQuestion, dmem, dget, truthy, defaultOptions, hqne]

/-- Core of the assessment floor: on any working dict the two normalization
steps produce a non-empty list of well-formed questions. -/
theorem c7_core (u : Nat → String) (d : List (String × PyVal)) :
    ∃ qs : List PyVal,
      dget (fixQuestionsList u (ensureQuestions u d)) "questions" = some (PyVal.list qs) ∧
      0 < qs.length ∧ ∀ q ∈ qs, goodQuestion q = true := by
  have key : ∃ qs0 : List PyVal,
      dget (ensureQuestions u d) "questions" = some (PyVal.list qs0) ∧ qs0 ≠ [] := by
    unfold ensureQuestions
    by_cases hc : (match dget d "questions" with
        | some (.list qs) => !qs.isEmpty
        | _ => false) = true
    · rw [if_pos hc]
      cases hq : dget d "questions" with
      | none => rw [hq] at hc; simp at hc
      | some v =>
        cases v with
        | list qs =>
          refine ⟨qs, rfl, fun hnil => ?_⟩
          rw [hq, hnil] at hc
          simp at hc
        | null => rw [hq] at hc; simp at hc
        | bool b => rw [hq] at hc; simp at hc
        | int n => rw [hq] at hc; simp at hc
        | float f => rw [hq] at hc; simp at hc
        | str s => rw [hq] at hc; simp at hc
        | dict xs => rw [hq] at hc; simp at hc
    · rw [if_neg hc]
      exact ⟨defaultQuestions u, dget_dset_self _ _ _, by simp [defaultQuestions]⟩
  obtain ⟨qs0, hq0, hne⟩ := key
  refine ⟨qs0.enum.map (fun p => fixQuestion u p.1 p.2), ?_, ?_, ?_⟩
  · unfold fixQuestionsList
    rw [hq0]
    exact dget_dset_self _ _ _
  · simp only [List.length_map, List.enum_length]
    exact List.length_pos.mpr hne
  · intro q hq
    obtain ⟨p, hp, hrfl⟩ := List.mem_map.mp hq
    rw [← hrfl]
    exact fixQuestion_good u p.1 p.2

/-- C7: for every input value (and every uuid stream),
`validate_assessment_questions` returns a mapping whose `questions` field is
a non-empty list, and every returned question is a mapping with an `id`, a
non-empty (truthy) `question`, an `options` list of length at least 2, a
`type` and a `category`. -/
theorem c7_assessment_question_floor (u : Nat → String) (data : PyVal) :
    ∃ qs : List PyVal,
      questionsOf (validate_assessment_questions u data) = some (PyVal.list qs) ∧
      0 < qs.length ∧ ∀ q ∈ qs, goodQuestion q = true := by
  cases data <;> exact c7_core u _

/-! ### Frame lemmas: the normalizers only add, never overwrite -/

theorem fixModulesList_ne (d : List (String × PyVal)) (k : String)
    (h : ("modules" : String) ≠ k) : dget (fixModulesList d) k = dget d k := by
  unfold fixModulesList
  cases hm : dget d "modules" with
  | none => rfl
  | some v =>
    cases v with
    | list ms => exact dget_dset_ne _ _ _ _ h
    | null => rfl
    | bool b => rfl
    | int n => rfl
    | float f => rfl
    | str s => rfl
    | dict xs => rfl

theorem fixLessonsList_ne (md : List (String × PyVal)) (k : String)
    (h : ("lessons" : String) ≠ k) : dget (fixLessonsList md) k = dget md k := by
  unfold fixLessonsList
  cases hm : dget md "lessons" with
  | none =>
    simp only [dget_dset_self]
    rw [dget_dset_ne _ _ _ _ h, dget_dset_ne _ _ _ _ h]
  | some v =>
    cases v with
    | list ls =>
      simp only []
      rw [hm]
      exact dget_dset_ne _ _ _ _ h
    | null =>
      simp only [dget_dset_self]
      rw [dget_dset_ne _ _ _ _ h, dget_dset_ne _ _ _ _ h]
    | bool b =>
      simp only [dget_dset_self]
      rw [dget_dset_ne _ _ _ _ h, dget_dset_ne _ _ _ _ h]
    | int n =>
      simp only [dget_dset_self]
      rw [dget_dset_ne _ _ _ _ h, dget_dset_ne _ _ _ _ h]
    | float f =>
      simp only [dget_dset_self]
      rw [dget_dset_ne _ _ _ _ h, dget_dset_ne _ _ _ _ h]
    | str s =>
      simp only [dget_dset_self]
      rw [dget_dset_ne _ _ _ _ h, dget_dset_ne _ _ _ _ h]
    | dict xs =>
      simp only [dget_dset_self]
      rw [dget_dset_ne _ _ _ _ h, dget_dset_ne _ _ _ _ h]

theorem addDescription_ne (md : List (String × PyVal)) (k : String)
    (h : ("description" : String) ≠ k) : dget (addDescription md) k = dget md k := by
  unfold addDescription
  split
  · rfl
  · exact dget_dset_ne _ _ _ _ h

theorem addDescription_eq_of_some (md : List (String × PyVal)) (t : PyVal)
    (h : dget md "description" = some t) : addDescription md = md := by
  unfold addDescription
  rw [if_pos]
  simp [dmem, h]

theorem fixQuestionText_ne (i : Nat) (qd : List (String × PyVal)) (k : String)
    (h : ("question" : String) ≠ k) : dget (fixQuestionText i qd) k = dget qd k := by
  unfold fixQuestionText
  split
  · rfl
  · exact dget_dset_ne _ _ _ _ h

theorem fixQuestionText_eq_of_truthy (i : Nat) (qd : List (String × PyVal)) (w : PyVal)
    (h : dget qd "question" = some w) (ht : truthy w = true) :
    fixQuestionText i qd = qd := by
  unfold fixQuestionText
  rw [if_pos]
  rw [h]
  exact ht

theorem fixQuestionOptions_ne (qd : List (String × PyVal)) (k : String)
    (h : ("options" : String) ≠ k) : dget (fixQuestionOptions qd) k = dget qd k := by
  unfold fixQuestionOptions
  split
  · rfl
  · exact dget_dset_ne _ _ _ _ h

theorem fixQuestionOptions_eq_of_len (qd : List (String × PyVal)) (xs : List PyVal)
    (h : dget qd "options" = some (PyVal.list xs)) (hl : 2 ≤ xs.length) :
    fixQuestionOptions qd = qd := by
  unfold fixQuestionOptions
  rw [if_pos]
  rw [h]
  simpa using hl

theorem ensureQuestions_eq_of_nonempty (u : Nat → String) (d : List (String × PyVal))
    (qs : List PyVal) (h : dget d "questions" = some (PyVal.list qs)) (hne : qs ≠ []) :
    ensureQuestions u d = d := by
  unfold ensureQuestions
  rw [if_pos]
  rw [h]
  simpa using hne

/-- C10: on mapping inputs the normalizers only add, never overwrite — every
field already present in the expected shape comes through unchanged at every
level (course title/description, non-list `modules` values, list `modules`
kept as the element-wise repaired list, module title/description/lessons,
lesson title/content, the non-empty `questions` list, and each question's
id / truthy question / length-at-least-2 options / type / category);
defaults are injected only for fields that are absent or fail their shape
check. -/
theorem c10_normalizers_only_add_never_overwrite (u : Nat → String) (d : List (String × PyVal)) :
    (∀ t, dget d "title" = some t →
        dget (fieldsOf (validate_course_structure (.dict d))) "title" = some t) ∧
    (∀ t, dget d "description" = some t →
        dget (fieldsOf (validate_course_structure (.dict d))) "description" = some t) ∧
    (∀ mv, dget d "modules" = some mv → isList mv = false →
        dget (fieldsOf (validate_course_structure (.dict d))) "modules" = some mv) ∧
    (∀ ms, dget d "modules" = some (PyVal.list ms) →
        dget (fieldsOf (validate_course_structure (.dict d))) "modules" =
          some (PyVal.list (ms.enum.map (fun p => fixModule p.1 p.2)))) ∧
    (∀ i md t, dget md "title" = some t →
        dget (fieldsOf (fixModule i (.dict md))) "title" = some t) ∧
    (∀ i md t, dget md "description" = some t →
        dget (fieldsOf (fixModule i (.dict md))) "description" = some t) ∧
    (∀ i md ls, dget md "lessons" = some (PyVal.list ls) →
        dget (fieldsOf (fixModule i (.dict md))) "lessons" =
          some (PyVal.list (ls.enum.map (fun p => fixLesson p.1 p.2)))) ∧
    (∀ j ld t, dget ld "title" = some t →
        dget (fieldsOf (fixLesson j (.dict ld))) "title" = some t) ∧
    (∀ j ld c, dget ld "content" = some c →
        dget (fieldsOf (fixLesson j (.dict ld))) "content" = some c) ∧
    (∀ qs, dget d "questions" = some (PyVal.list qs) → qs ≠ [] →
        dget (fieldsOf (validate_assessment_questions u (.dict d))) "questions" =
          some (PyVal.list (qs.enum.map (fun p => fixQuestion u p.1 p.2)))) ∧
    (∀ i qd w, dget qd "id" = some w →
        dget (fieldsOf (fixQuestion u i (.dict qd))) "id" = some w) ∧
    (∀ i qd w, dget qd "question" = some w → truthy w = true →
        dget (fieldsOf (fixQuestion u i (.dict qd))) "question" = some w) ∧
    (∀ i qd xs, dget qd "options" = some (PyVal.list xs) → 2 ≤ xs.length →
        dget (fieldsOf (fixQuestion u i (.dict qd))) "options" = some (PyVal.list xs)) ∧
    (∀ i qd w, dget qd "type" = some w →
        dget (fieldsOf (fixQuestion u i (.dict qd))) "type" = some w) ∧
    (∀ i qd w, dget qd "category" = some w →
        dget (fieldsOf (fixQuestion u i (.dict qd))) "category" = some w) := by
  refine ⟨?_, ?_, ?_, ?_, ?_, ?_, ?_, ?_, ?_, ?_, ?_, ?_, ?_, ?_, ?_⟩
  · intro t ht
    show dget (fixModulesList _) "title" = some t
    rw [fixModulesList_ne _ _ (by decide),
        dget_addDefault_ne _ _ _ _ (by decide),
        dget_addDefault_ne _ _ _ _ (by decide)]
    exact dget_addDefault_of_some _ _ _ _ ht
  · intro t ht
    show dget (fixModulesList _) "description" = some t
    rw [fixModulesList_ne _ _ (by decide),
        dget_addDefault_ne _ _ _ _ (by decide)]
    exact dget_addDefault_of_some _ _ _ _
      (by rw [dget_addDefault_ne _ _ _ _ (by decide)]; exact ht)
  · intro mv hmv hnl
    show dget (fixModulesList _) "modules" = some mv
    have h3 : dget (addDefault (addDefault (addDefault d "title" (PyVal.str "Untitled Course"))
        "description" (PyVal.str "No description provided.")) "modules" (PyVal.list []))
        "modules" = some mv := by
      exact dget_addDefault_of_some _ _ _ _
        (by rw [dget_addDefault_ne _ _ _ _ (by decide),
                dget_addDefault_ne _ _ _ _ (by decide)]; exact hmv)
    unfold fixModulesList
    rw [h3]
    cases mv with
    | list ms => simp [isList] at hnl
    | null => exact h3
    | bool b => exact h3
    | int n => exact h3
    | float f => exact h3
    | str s => exact h3
    | dict xs => exact h3
  · intro ms hms
    show dget (fixModulesList _) "modules" = _
    have h3 : dget (addDefault (addDefault (addDefault d "title" (PyVal.str "Untitled Course"))
        "description" (PyVal.str "No description provided.")) "modules" (PyVal.list []))
        "modules" = some (PyVal.list ms) := by
      exact dget_addDefault_of_some _ _ _ _
        (by rw [dget_addDefault_ne _ _ _ _ (by decide),
                dget_addDefault_ne _ _ _ _ (by decide)]; exact hms)
    unfold fixModulesList
    rw [h3]
    exact dget_dset_self _ _ _
  · intro i md t ht
    show dget (fixLessonsList (addDescription (addDefault md "title" _))) "title" = some t
    rw [fixLessonsList_ne _ _ (by decide), addDescription_ne _ _ (by decide)]
    exact dget_addDefault_of_some _ _ _ _ ht
  · intro i md t ht
    show dget (fixLessonsList (addDescription (addDefault md "title" _))) "description" = some t
    rw [fixLessonsList_ne _ _ (by decide)]
    rw [addDescription_eq_of_some _ _
      (by rw [dget_addDefault_ne _ _ _ _ (by decide)]; exact ht)]
    rw [dget_addDefault_ne _ _ _ _ (by decide)]
    exact ht
  · intro i md ls hls
    show dget (fixLessonsList (addDescription (addDefault md "title" _))) "lessons" = _
    have h2 : dget (addDescription (addDefault md "title"
        (PyVal.str ("Module " ++ toString (i + 1))))) "lessons" = some (PyVal.list ls) := by
      rw [addDescription_ne _ _ (by decide), dget_addDefault_ne _ _ _ _ (by decide)]
      exact hls
    unfold fixLessonsList
    simp only [h2]
    exact dget_dset_self _ _ _
  · intro j ld t ht
    show dget (addDefault (addDefault ld "title" _) "content" _) "title" = some t
    rw [dget_addDefault_ne _ _ _ _ (by decide)]
    exact dget_addDefault_of_some _ _ _ _ ht
  · intro j ld c hc
    show dget (addDefault (addDefault ld "title" _) "content" _) "content" = some c
    exact dget_addDefault_of_some _ _ _ _
      (by rw [dget_addDefault_ne _ _ _ _ (by decide)]; exact hc)
  · intro qs hqs hne
    show dget (fixQuestionsList u (ensureQuestions u d)) "questions" = _
    rw [ensureQuestions_eq_of_nonempty u d qs hqs hne]
    unfold fixQuestionsList
    rw [hqs]
    exact dget_dset_self _ _ _
  · intro i qd w hw
    show dget (addDefault (addDefault (fixQuestionOptions (fixQuestionText i
      (fixQuestionId u i qd))) "type" _) "category" _) "id" = some w
    rw [dget_addDefault_ne _ _ _ _ (by decide), dget_addDefault_ne _ _ _ _ (by decide),
        fixQuestionOptions_ne _ _ (by decide), fixQuestionText_ne _ _ _ (by decide)]
    unfold fixQuestionId
    exact dget_addDefault_of_some _ _ _ _ hw
  · intro i qd w hw htr
    show dget (addDefault (addDefault (fixQuestionOptions (fixQuestionText i
      (fixQuestionId u i qd))) "type" _) "category" _) "question" = some w
    have h1 : dget (fixQuestionId u i qd) "question" = some w := by
      unfold fixQuestionId
      rw [dget_addDefault_ne _ _ _ _ (by decide)]; exact hw
    rw [dget_addDefault_ne _ _ _ _ (by decide), dget_addDefault_ne _ _ _ _ (by decide),
        fixQuestionOptions_ne _ _ (by decide),
        fixQuestionText_eq_of_truthy _ _ _ h1 htr]
    exact h1
  · intro i qd xs hxs hl
    show dget (addDefault (addDefault (fixQuestionOptions (fixQuestionText i
      (fixQuestionId u i qd))) "type" _) "category" _) "options" = some (PyVal.list xs)
    have h2 : dget (fixQuestionText i (fixQuestionId u i qd)) "options" =
        some (PyVal.list xs) := by
      unfold fixQuestionId
      rw [fixQuestionText_ne _ _ _ (by decide), dget_addDefault_ne _ _ _ _ (by decide)]
      exact hxs
    rw [dget_addDefault_ne _ _ _ _ (by decide), dget_addDefault_ne _ _ _ _ (by decide),
        fixQuestionOptions_eq_of_len _ _ h2 hl]
    exact h2
  · intro i qd w hw
    show dget (addDefault (addDefault (fixQuestionOptions (fixQuestionText i
      (fixQuestionId u i qd))) "type" _) "category" _) "type" = some w
    rw [dget_addDefault_ne _ _ _ _ (by decide)]
    exact dget_addDefault_of_some _ _ _ _
      (by unfold fixQuestionId
          rw [fixQuestionOptions_ne _ _ (by decide), fixQuestionText_ne _ _ _ (by decide),
              dget_addDefault_ne _ _ _ _ (by decide)]; exact hw)
  · intro i qd w hw
    show dget (addDefault (addDefault (fixQuestionOptions (fixQuestionText i
      (fixQuestionId u i qd))) "type" _) "category" _) "category" = some w
    exact dget_addDefault_of_some _ _ _ _
      (by unfold fixQuestionId
          rw [dget_addDefault_ne _ _ _ _ (by decide),
              fixQuestionOptions_ne _ _ (by decide), fixQuestionText_ne _ _ _ (by decide),
              dget_addDefault_ne _ _ _ _ (by decide)]; exact hw)


/-- C10 (witness): the frame theorem applied to a mapping that already has a
title. -/
theorem c10_normalizers_only_add_never_overwrite_witness :
    dget [("title", PyVal.str "T")] "title" = some (PyVal.str "T") ∧
    dget (fieldsOf (validate_course_structure (PyVal.dict [("title", PyVal.str "T")])))
      "title" = some (PyVal.str "T") :=
  ⟨rfl, ((c10_normalizers_only_add_never_overwrite (fun _ => "x")
    [("title", PyVal.str "T")]).1) (PyVal.str "T") rfl⟩
